import Mathlib

/-!
Verification of the real-temperature-proxy-api core.

Shallow embedding, in Lean 4, of the core of the `real-temperature-proxy-api`
repository: coordinate rounding (`round(x, 4)` in `services/weather.py`), the
LRU cache backend (`core/cache.py`), the request coalescer
(`services/weather.py`), the Open-Meteo client with its error classification
and tenacity retry policy (`services/openmeteo.py`), and the orchestrator's
error mapping (`services/weather.py`).

Numbers are modelled as exact rationals (`ℚ`): Python's `round` is
round-half-to-even ("banker's rounding"), modelled here on exact decimal
values.  Python dictionaries are modelled as association lists with unique
keys; `collections.OrderedDict` order is the list order (front = oldest /
least recently used, back = newest / most recently used, matching
`move_to_end` which moves to the back and `next(iter(...))` which yields the
front).

The coalescer (`RequestCoalescer.coalesce`) is an `async` method; its model
below is the *sequential* execution of one complete call: the call runs from
start to finish with no other task interleaved.  This is a real execution of
the asyncio program (requests arriving one at a time), so every behaviour of
the model is a behaviour of the code.
-/

/-! Python banker's rounding on exact rationals. -/

/-- Round a rational to the nearest integer, ties to even — the rounding mode
of Python's built-in `round`. -/
def roundHalfEven (q : ℚ) : ℤ :=
  let n := Int.floor q
  let frac := q - n
  if frac < 1/2 then n
  else if 1/2 < frac then n + 1
  else if n % 2 = 0 then n else n + 1

/-- Python's `round(x, p)` for `p ≥ 0`, on exact rationals:
round `x·10^p` to the nearest integer (ties to even) and scale back. -/
def pyRound (p : ℕ) (x : ℚ) : ℚ :=
  (roundHalfEven (x * 10 ^ p) : ℚ) / 10 ^ p

/-! Association lists: the model of Python `dict` / `OrderedDict`.
Lookup and erase act on the first matching key; the stores built below keep
keys unique, and for `OrderedDict` the list order is the iteration order. -/

def alistLookup {α β : Type} [DecidableEq α] (k : α) : List (α × β) → Option β
  | [] => none
  | (a, b) :: t => if a = k then some b else alistLookup k t

def alistSet {α β : Type} [DecidableEq α] (k : α) (v : β) : List (α × β) → List (α × β)
  | [] => [(k, v)]
  | (a, b) :: t => if a = k then (k, v) :: t else (a, b) :: alistSet k v t

def alistErase {α β : Type} [DecidableEq α] (k : α) : List (α × β) → List (α × β)
  | [] => []
  | (a, b) :: t => if a = k then t else (a, b) :: alistErase k t

/-! The LRU cache backend, `core/cache.py` (`LRUInMemoryBackend`).
`self._store` is an `OrderedDict`; here it is the list `store`, front =
least recently used.  `move_to_end` is modelled as erase-then-append. -/

structure LRUInMemoryBackend (ν : Type) where
  max_size : ℕ
  store : List (String × ν)

/-- `LRUInMemoryBackend.__init__`: empty store with the given bound
(default 10000 in the source). -/
def LRUInMemoryBackend.mkEmpty (ν : Type) (max_size : ℕ) : LRUInMemoryBackend ν :=
  { max_size := max_size, store := [] }

/-- `LRUInMemoryBackend.get`: on a hit, `move_to_end` (mark most recently
used) and return the value; on a miss return `None`.  Returns the value and
the updated backend. -/
def LRUInMemoryBackend.get {ν : Type} (c : LRUInMemoryBackend ν) (key : String) :
    Option ν × LRUInMemoryBackend ν :=
  match alistLookup key c.store with
  | some v => (some v, { c with store := alistErase key c.store ++ [(key, v)] })
  | none => (none, c)

/-- `LRUInMemoryBackend.set`: if the key is absent and the store has reached
`max_size`, delete the first (least recently used) entry; then write the
binding and `move_to_end`, i.e. place it at the back. -/
def LRUInMemoryBackend.set {ν : Type} (c : LRUInMemoryBackend ν) (key : String) (v : ν) :
    LRUInMemoryBackend ν :=
  let st :=
    if (alistLookup key c.store).isNone ∧ c.max_size ≤ c.store.length
    then c.store.tail else c.store
  { c with store := alistErase key st ++ [(key, v)] }

/-- `LRUInMemoryBackend.delete`: remove the binding if present. -/
def LRUInMemoryBackend.delete {ν : Type} (c : LRUInMemoryBackend ν) (key : String) :
    LRUInMemoryBackend ν :=
  { c with store := alistErase key c.store }

/-- Truthiness of an optional Python string: `None` and `""` are falsy. -/
def pyTruthyStr : Option String → Bool
  | none => false
  | some s => !(s = "")

/-- `LRUInMemoryBackend.clear`: with a truthy `key` argument delete that key,
otherwise clear the whole store. -/
def LRUInMemoryBackend.clear {ν : Type} (c : LRUInMemoryBackend ν) (key : Option String) :
    LRUInMemoryBackend ν :=
  if pyTruthyStr key then c.delete (key.getD "") else { c with store := [] }

/-- `LRUInMemoryBackend.size`: number of entries. -/
def LRUInMemoryBackend.size {ν : Type} (c : LRUInMemoryBackend ν) : ℕ :=
  c.store.length

/-! Data model, `models/weather.py`.  `datetime` values are opaque integer
timestamps; floats are exact rationals. -/

structure LocationModel where
  lat : ℚ
  lon : ℚ
  deriving DecidableEq

structure CurrentWeatherModel where
  temperatureC : Option ℚ
  windSpeedKmh : Option ℚ
  deriving DecidableEq

structure WeatherResponse where
  location : LocationModel
  current : CurrentWeatherModel
  source : String
  retrievedAt : ℤ
  deriving DecidableEq

structure OpenMeteoCurrentData where
  time : String
  interval : ℤ
  temperature_2m : Option ℚ
  wind_speed_10m : Option ℚ
  deriving DecidableEq

structure OpenMeteoResponse where
  latitude : ℚ
  longitude : ℚ
  generationtime_ms : ℚ
  utc_offset_seconds : ℤ
  timezone : String
  timezone_abbreviation : String
  elevation : ℚ
  current : OpenMeteoCurrentData
  deriving DecidableEq

/-! Exception taxonomy.  `services/openmeteo.py` declares the
`OpenMeteoError` hierarchy; `httpx` transport exceptions and FastAPI
`HTTPException` are the other exception classes the core handles.  Each
carries its message / detail string. -/

inductive OMError : Type
  | timeoutError (msg : String)
  | upstreamError (msg : String)
  | clientError (msg : String)
  | networkError (msg : String)
  | baseError (msg : String)
  deriving DecidableEq

inductive HttpxException : Type
  | timeoutException (msg : String)
  | connectError (msg : String)
  | httpError (msg : String)
  deriving DecidableEq

inductive PyException : Type
  | om (e : OMError)
  | httpx (e : HttpxException)
  | httpException (status : ℕ) (detail : String)
  | other (desc : String)
  deriving DecidableEq

/-! The request coalescer, `services/weather.py` (`RequestCoalescer`).

State: `self._events` maps a key to its `asyncio.Event` (the Bool is
`event.is_set()`), `self._results` maps a key to the stored
`WeatherResponse | Exception`, `self._waiter_counts` is a `defaultdict(int)`
(an absent key counts as 0).  The per-key `asyncio.Lock`s serialize critical
sections and carry no further state, so they are not modelled.

`coalesce` is modelled as one complete sequential call: the outcome the
upstream fetch would produce is passed as the `fetch` argument, and the
model returns the call's result, the post-state, and how many times
`fetch_func` was invoked.  A caller that would block forever on
`event.wait()` (the event exists but is not set, and nobody else runs)
returns `.blocked`. -/

inductive FetchOutcome : Type
  | ok (r : WeatherResponse)
  | exc (e : PyException)
  deriving DecidableEq

inductive CallResult : Type
  | success (r : WeatherResponse)
  | raised (e : PyException)
  | blocked
  deriving DecidableEq

structure CoalescerState (κ : Type) where
  events : List (κ × Bool)
  results : List (κ × FetchOutcome)
  waiterCounts : List (κ × ℕ)
  maxWaiters : ℕ

/-- `RequestCoalescer.__init__`: all bookkeeping empty. -/
def RequestCoalescer.mkEmpty (κ : Type) (max_waiters : ℕ) : CoalescerState κ :=
  { events := [], results := [], waiterCounts := [], maxWaiters := max_waiters }

def CoalescerState.count {κ : Type} [DecidableEq κ] (s : CoalescerState κ) (k : κ) : ℕ :=
  (alistLookup k s.waiterCounts).getD 0

def CoalescerState.setCount {κ : Type} [DecidableEq κ] (s : CoalescerState κ)
    (k : κ) (n : ℕ) : CoalescerState κ :=
  { s with waiterCounts := alistSet k n s.waiterCounts }

/-- The cleanup the last departing waiter performs (`weather.py` 112-116):
pop the event, the result and the waiter count for the key. -/
def CoalescerState.cleanup {κ : Type} [DecidableEq κ] (s : CoalescerState κ)
    (k : κ) : CoalescerState κ :=
  { s with
    events := alistErase k s.events
    results := alistErase k s.results
    waiterCounts := alistErase k s.waiterCounts }

/-- The 503 rejection raised at `weather.py` 78-81. -/
def coalesceRejection : PyException :=
  .httpException 503 "Service temporarily unavailable - too many concurrent requests"

/-- The waiter path of `coalesce` (`weather.py` 91-116), entered after the
caller has incremented the key's waiter count: wait on the event, read the
stored result (raise it if it is an exception, 500 if it is missing), then
decrement the count and, as the last waiter, clean the key up.  If the event
is not set, a sequential call waits forever: `.blocked`. -/
def coalesceWaiterWait {κ : Type} [DecidableEq κ] (s : CoalescerState κ) (k : κ) :
    CallResult × CoalescerState κ :=
  match alistLookup k s.events with
  | some true =>
    let out : CallResult :=
      match alistLookup k s.results with
      | some (.exc e) => .raised e
      | some (.ok r) => .success r
      | none => .raised (.httpException 500 "Internal server error")
    let n := s.count k - 1
    let s1 := s.setCount k n
    (out, if n = 0 then s1.cleanup k else s1)
  | _ => (.blocked, s)

/-- `RequestCoalescer.coalesce` (`weather.py` 47-153) as one sequential call.
Returns (call result, post-state, number of `fetch_func` invocations). -/
def RequestCoalescer.coalesce {κ : Type} [DecidableEq κ] (s : CoalescerState κ)
    (k : κ) (fetch : FetchOutcome) : CallResult × CoalescerState κ × ℕ :=
  if (alistLookup k s.events).isSome then
    -- key already fetching (line 70): admission check, then wait
    if s.maxWaiters ≤ s.count k then
      (.raised coalesceRejection, s, 0)
    else
      let s1 := s.setCount k (s.count k + 1)
      let (r, s2) := coalesceWaiterWait s1 k
      (r, s2, 0)
  else
    -- first request for the key (line 119): the double-check inside the
    -- second critical section still finds no event (nothing ran in
    -- between), so the caller creates the (unset) event
    let s1 := { s with events := alistSet k false s.events }
    -- line 130: if a waiter count is already registered, re-enter
    -- `coalesce` recursively; the recursive call finds the event and
    -- takes the waiter path
    if 0 < s1.count k then
      if s1.maxWaiters ≤ s1.count k then
        (.raised coalesceRejection, s1, 0)
      else
        let s2 := s1.setCount k (s1.count k + 1)
        let (r, s3) := coalesceWaiterWait s2 k
        (r, s3, 0)
    else
      -- leader: perform the fetch (lines 135-153)
      match fetch with
      | .ok r =>
        let s2 := { s1 with
          results := alistSet k (.ok r) s1.results
          events := alistSet k true s1.events }
        (.success r, s2, 1)
      | .exc e =>
        let s2 := { s1 with
          results := alistSet k (.exc e) s1.results
          events :=
            if (alistLookup k s1.events).isSome
            then alistSet k true s1.events else s1.events }
        (.raised e, s2, 1)

/-! Configuration, `core/config.py` (`Settings`): the fields the core
consumes, with their defaults. -/

structure Settings where
  UPSTREAM_TIMEOUT : ℚ
  RETRY_COUNT : ℕ
  RETRY_DELAY : ℚ
  RETRY_BACKOFF_MULTIPLIER : ℚ
  CACHE_TTL : ℕ
  CACHE_MAX_SIZE : ℕ
  REQUEST_COALESCE_LIMIT : ℕ

def defaultSettings : Settings :=
  { UPSTREAM_TIMEOUT := 1
    RETRY_COUNT := 3
    RETRY_DELAY := 100
    RETRY_BACKOFF_MULTIPLIER := 2
    CACHE_TTL := 60
    CACHE_MAX_SIZE := 10000
    REQUEST_COALESCE_LIMIT := 100 }

/-! The Open-Meteo client, `services/openmeteo.py`. -/

/-- Python's `needle in haystack` on strings: `splitOn` yields more than one
part exactly when the (nonempty) needle occurs. -/
def pyStrContains (hay needle : String) : Bool :=
  (hay.splitOn needle).length ≠ 1

/-- The message heuristic of `openmeteo.py` 228-229: `str(e).lower()`
contains "name", "dns" or "resolve". -/
def isDnsFailureMsg (msg : String) : Bool :=
  let m := msg.toLower
  pyStrContains m "name" || pyStrContains m "dns" || pyStrContains m "resolve"

/-- `_should_retry` (`openmeteo.py` 54-88): an `isinstance` check against
`(OpenMeteoTimeoutError, OpenMeteoUpstreamError, httpx.ConnectError)`. -/
def should_retry : PyException → Bool
  | .om (.timeoutError _) => true
  | .om (.upstreamError _) => true
  | .httpx (.connectError _) => true
  | _ => false

/-- What one HTTP attempt inside `get_current_weather` encounters: either a
response with a status code and (on 2xx) a parsed payload, or a transport
exception raised by `httpx`. -/
inductive AttemptEvent : Type
  | response (status : ℕ) (data : OpenMeteoResponse)
  | transport (e : HttpxException)

/-- `OpenMeteoClient._normalize_response` (`openmeteo.py` 243-304): round
temperature and wind speed to 1 decimal (banker's rounding), build the
location from the `latitude`/`longitude` arguments (not from the provider's
echoed coordinates), stamp with the current UTC time (`now`). -/
def OpenMeteoClient.normalize_response (data : OpenMeteoResponse)
    (latitude longitude : ℚ) (now : ℤ) : WeatherResponse :=
  { location := { lat := latitude, lon := longitude }
    current :=
      { temperatureC := data.current.temperature_2m.map (pyRound 1)
        windSpeedKmh := data.current.wind_speed_10m.map (pyRound 1) }
    source := "open-meteo"
    retrievedAt := now }

/-- One attempt of the body of `OpenMeteoClient.get_current_weather`
(`openmeteo.py` 184-241): classify the response status or the transport
exception into the `OpenMeteoError` hierarchy; every `httpx` exception is
caught and re-raised as an `OpenMeteo*` error, so no `httpx` exception
escapes an attempt. -/
def OpenMeteoClient.attemptOnce (latitude longitude : ℚ) (now : ℤ)
    (ev : AttemptEvent) : Except PyException WeatherResponse :=
  match ev with
  | .response status data =>
    if 500 ≤ status then
      .error (.om (.upstreamError ("Upstream API returned " ++ toString status)))
    else if 400 ≤ status then
      .error (.om (.clientError ("Upstream API returned " ++ toString status)))
    else
      .ok (OpenMeteoClient.normalize_response data latitude longitude now)
  | .transport (.timeoutException _) =>
    .error (.om (.timeoutError "Upstream API request timed out"))
  | .transport (.connectError msg) =>
    if isDnsFailureMsg msg then
      .error (.om (.networkError "Failed to resolve upstream API hostname"))
    else
      .error (.om (.networkError "Failed to connect to upstream API"))
  | .transport (.httpError msg) =>
    .error (.om (.networkError ("Network error: " ++ msg)))

/-- tenacity's retry driver with `retry_if_exception(_should_retry)`,
`stop_after_attempt(maxAttempts)` and `reraise=True`: run attempt `n`; an
`.ok` returns at once; an exception the predicate rejects is raised at once;
otherwise retry until the attempt number reaches `maxAttempts`, then re-raise
the last exception unchanged.  `fuel` is the number of attempts still
allowed; returns the outcome and the number of the last attempt made. -/
def tenacityRun (attempt : ℕ → Except PyException WeatherResponse) :
    ℕ → ℕ → Except PyException WeatherResponse × ℕ
  | 0, n => (.error (.other "RetryError"), n)
  | fuel + 1, n =>
    match attempt n with
    | .ok w => (.ok w, n)
    | .error e =>
      if should_retry e && fuel != 0 then tenacityRun attempt fuel (n + 1)
      else (.error e, n)

/-- `OpenMeteoClient.get_current_weather` (`openmeteo.py` 124-241): the
attempt body wrapped in the `@retry` decorator with
`stop_after_attempt(RETRY_COUNT + 1)`.  `events n` is what attempt `n`
encounters upstream. -/
def OpenMeteoClient.get_current_weather (st : Settings) (latitude longitude : ℚ)
    (now : ℤ) (events : ℕ → AttemptEvent) :
    Except PyException WeatherResponse × ℕ :=
  tenacityRun (fun n => OpenMeteoClient.attemptOnce latitude longitude now (events n))
    (st.RETRY_COUNT + 1) 1

/-- tenacity's `wait_exponential(multiplier, max, exp_base, min)`: the wait
after attempt `n` is `multiplier · exp_base^(n-1)` clamped into
`[max(0, min), maxWait]`. -/
def wait_exponential (multiplier maxWait expBase minWait : ℚ) (attemptNumber : ℕ) : ℚ :=
  max (max 0 minWait) (min (multiplier * expBase ^ (attemptNumber - 1)) maxWait)

/-- tenacity's `wait_random(a, b)`: `a + random() · (b - a)` with
`random() = r ∈ [0, 1)`. -/
def wait_random (a b r : ℚ) : ℚ :=
  a + r * (b - a)

/-- tenacity's `MAX_WAIT` default upper clamp (`sys.maxsize / 2`). -/
def tenacityMaxWait : ℚ := 2 ^ 62

/-- The wait configured on `get_current_weather` (`openmeteo.py` 129-133):
`wait_exponential(min=RETRY_DELAY/1000, multiplier=RETRY_BACKOFF_MULTIPLIER)
+ wait_random(0, 1)`; the delay in seconds before the retry that follows
attempt `attemptNumber`, with jitter draw `r`. -/
def openMeteoRetryWait (st : Settings) (attemptNumber : ℕ) (r : ℚ) : ℚ :=
  wait_exponential st.RETRY_BACKOFF_MULTIPLIER tenacityMaxWait 2
      (st.RETRY_DELAY / 1000) attemptNumber
    + wait_random 0 1 r

/-! The orchestrator, `services/weather.py` (`WeatherService`). -/

/-- The key computed at `weather.py` 203-205: both coordinates rounded to 4
decimal places. -/
def WeatherService.cacheKey (latitude longitude : ℚ) : ℚ × ℚ :=
  (pyRound 4 latitude, pyRound 4 longitude)

/-- One cache-miss leader episode of `WeatherService.get_current_weather`
(`weather.py` 203-218): the coalescer is called with the rounded key, while
the fetch closure calls the client with the caller's original, unrounded
coordinates.  Returns the key and the response a successful fetch yields. -/
def WeatherService.leaderCall (latitude longitude : ℚ) (data : OpenMeteoResponse)
    (now : ℤ) : (ℚ × ℚ) × WeatherResponse :=
  (WeatherService.cacheKey latitude longitude,
   OpenMeteoClient.normalize_response data latitude longitude now)

/-- The `except` chain of `WeatherService.get_current_weather`
(`weather.py` 220-257): the HTTP status and error message surfaced for each
exception escaping the coalescer.  `HTTPException`s (the coalescer's 503 and
500) re-raise unchanged; any other exception maps to a 500. -/
def WeatherService.mapException : PyException → ℕ × String
  | .om (.timeoutError _) =>
    (504, "Gateway timeout - upstream API did not respond in time")
  | .om (.upstreamError _) => (502, "Bad gateway - upstream API error")
  | .om (.clientError _) => (502, "Bad gateway - upstream API error")
  | .om (.networkError _) => (502, "Bad gateway - upstream API error")
  | .om (.baseError _) => (502, "Bad gateway - upstream API error")
  | .httpException status detail => (status, detail)
  | .httpx _ => (500, "Internal server error")
  | .other _ => (500, "Internal server error")

/-! Concrete states used by the witnesses. -/

/-- A two-entry backend at capacity — front entry least recently used. -/
def lruSample : LRUInMemoryBackend ℕ :=
  { max_size := 2, store := [("a", 1), ("b", 2)] }

/-- A coalescer with a fetch in flight for key 7 (event present, not set)
whose waiter count has reached the configured maximum. -/
def coalescerBusy : CoalescerState ℕ :=
  { events := [(7, false)], results := [], waiterCounts := [(7, 100)], maxWaiters := 100 }

/-- A concrete normalized response. -/
def weatherSample : WeatherResponse :=
  { location := { lat := 52, lon := 13 }
    current := { temperatureC := none, windSpeedKmh := none }
    source := "open-meteo"
    retrievedAt := 0 }

/-! Helper lemmas. -/

theorem roundHalfEven_intCast (n : ℤ) : roundHalfEven (n : ℚ) = n := by
  simp [roundHalfEven]

theorem pyRound_pyRound (p : ℕ) (x : ℚ) : pyRound p (pyRound p x) = pyRound p x := by
  unfold pyRound
  have h10 : ((10 : ℚ) ^ p) ≠ 0 := by positivity
  rw [div_mul_cancel₀ _ h10, roundHalfEven_intCast]

theorem alistErase_of_lookup_none {α β : Type} [DecidableEq α] (k : α)
    (l : List (α × β)) (h : alistLookup k l = none) : alistErase k l = l := by
  induction l with
  | nil => rfl
  | cons p t ih =>
    obtain ⟨a, b⟩ := p
    by_cases hak : a = k
    · simp [alistLookup, hak] at h
    · simp [alistLookup, hak] at h
      simp [alistErase, hak, ih h]

theorem alistErase_length_of_lookup_some {α β : Type} [DecidableEq α] (k : α)
    (l : List (α × β)) (v : β) (h : alistLookup k l = some v) :
    (alistErase k l).length + 1 = l.length := by
  induction l with
  | nil => simp [alistLookup] at h
  | cons p t ih =>
    obtain ⟨a, b⟩ := p
    by_cases hak : a = k
    · simp [alistErase, hak]
    · simp [alistLookup, hak] at h
      simp [alistErase, hak, ih h]

theorem alistErase_length_le {α β : Type} [DecidableEq α] (k : α)
    (l : List (α × β)) : (alistErase k l).length ≤ l.length := by
  induction l with
  | nil => simp [alistErase]
  | cons p t ih =>
    obtain ⟨a, b⟩ := p
    by_cases hak : a = k
    · simp [alistErase, hak]
    · simpa [alistErase, hak] using Nat.succ_le_succ ih

theorem alistLookup_append {α β : Type} [DecidableEq α] (k : α)
    (l₁ l₂ : List (α × β)) :
    alistLookup k (l₁ ++ l₂) =
      (match alistLookup k l₁ with
       | some v => some v
       | none => alistLookup k l₂) := by
  induction l₁ with
  | nil => simp [alistLookup]
  | cons p t ih =>
    obtain ⟨a, b⟩ := p
    by_cases hak : a = k <;> simp [alistLookup, hak, ih]

theorem alistLookup_alistErase_ne {α β : Type} [DecidableEq α] (k k' : α)
    (l : List (α × β)) (h : k' ≠ k) :
    alistLookup k' (alistErase k l) = alistLookup k' l := by
  induction l with
  | nil => rfl
  | cons p t ih =>
    obtain ⟨a, b⟩ := p
    by_cases hak : a = k
    · subst hak
      simp [alistErase, alistLookup, Ne.symm h]
    · by_cases hak' : a = k'
      · simp [alistErase, if_neg hak, alistLookup, if_pos hak']
      · simp [alistErase, if_neg hak, alistLookup, if_neg hak', ih]

theorem alistLookup_eq_none_of_not_mem {α β : Type} [DecidableEq α] (k : α)
    (l : List (α × β)) (h : k ∉ l.map Prod.fst) : alistLookup k l = none := by
  induction l with
  | nil => rfl
  | cons p t ih =>
    obtain ⟨a, b⟩ := p
    simp only [List.map_cons, List.mem_cons, not_or] at h
    have hak : a ≠ k := fun hc => h.1 hc.symm
    simp [alistLookup, hak, ih h.2]

theorem alistLookup_alistErase_self {α β : Type} [DecidableEq α] (k : α)
    (l : List (α × β)) (hnd : (l.map Prod.fst).Nodup) :
    alistLookup k (alistErase k l) = none := by
  induction l with
  | nil => rfl
  | cons p t ih =>
    obtain ⟨a, b⟩ := p
    simp only [List.map_cons, List.nodup_cons] at hnd
    by_cases hak : a = k
    · subst hak
      simp only [alistErase, if_pos rfl]
      exact alistLookup_eq_none_of_not_mem _ _ hnd.1
    · simp only [alistErase, if_neg hak, alistLookup, if_neg hak]
      exact ih hnd.2

theorem alistLookup_tail_none {α β : Type} [DecidableEq α] (k : α) (l : List (α × β))
    (h : alistLookup k l = none) : alistLookup k l.tail = none := by
  cases l with
  | nil => rfl
  | cons p t =>
    obtain ⟨a, b⟩ := p
    by_cases hak : a = k
    · simp [alistLookup, hak] at h
    · simpa [alistLookup, hak] using h

/-! Claim theorems. -/

/-- C1: the claim says that for every key, every set of N concurrent
`coalesce` calls during a cache miss triggers exactly one `fetch_func`
invocation whose single outcome all N callers observe.  The code violates
it: the leader never cleans its bookkeeping up (cleanup happens only in the
waiter path), so after a leader episode with no waiters the set event and
the stored result persist, and the next cache-miss call for the key — a set
of N = 1 concurrent calls — performs zero `fetch_func` invocations and is
served the previous episode's stale response (`w1`, not the fresh `w2` the
upstream now holds); only the call after that fetches again. -/
theorem C1_second_miss_served_stale_without_fetch {κ : Type} [DecidableEq κ]
    (k : κ) (w1 w2 : WeatherResponse) :
    (RequestCoalescer.coalesce (RequestCoalescer.mkEmpty κ 100) k (.ok w1)).1
      = .success w1 ∧
    (RequestCoalescer.coalesce (RequestCoalescer.mkEmpty κ 100) k (.ok w1)).2.2 = 1 ∧
    (RequestCoalescer.coalesce
        (RequestCoalescer.coalesce (RequestCoalescer.mkEmpty κ 100) k (.ok w1)).2.1
        k (.ok w2)).1 = .success w1 ∧
    (RequestCoalescer.coalesce
        (RequestCoalescer.coalesce (RequestCoalescer.mkEmpty κ 100) k (.ok w1)).2.1
        k (.ok w2)).2.2 = 0 ∧
    (RequestCoalescer.coalesce
        (RequestCoalescer.coalesce
          (RequestCoalescer.coalesce (RequestCoalescer.mkEmpty κ 100) k (.ok w1)).2.1
          k (.ok w2)).2.1
        k (.ok w2)).2.2 = 1 := by
  simp [RequestCoalescer.coalesce, RequestCoalescer.mkEmpty, coalesceWaiterWait,
    CoalescerState.count, CoalescerState.setCount, CoalescerState.cleanup,
    alistLookup, alistSet, alistErase]

/-- C2: the claim (and the docstrings of `_should_retry` and
`get_current_weather`, and the comment "Connection refused - this will be
retried") say a connection-refused network error is retried.  It is not:
the body of `get_current_weather` catches `httpx.ConnectError` and
re-raises it as `OpenMeteoNetworkError`, so by the time tenacity consults
`_should_retry` the exception is no longer the `httpx.ConnectError` listed
in the `isinstance` tuple, and exactly one attempt is made.  For contrast,
the raw `httpx.ConnectError` would satisfy the predicate, a timeout is
retried to `RETRY_COUNT + 1` attempts, and a 4xx response is not
retried. -/
theorem C2_connect_error_never_retried (lat lon : ℚ) (now : ℤ)
    (msg : String) (dta : OpenMeteoResponse) :
    should_retry (.httpx (.connectError msg)) = true ∧
    (∃ m, OpenMeteoClient.attemptOnce lat lon now (.transport (.connectError msg))
        = .error (.om (.networkError m)) ∧
      should_retry (.om (.networkError m)) = false) ∧
    (OpenMeteoClient.get_current_weather defaultSettings lat lon now
        (fun _ => .transport (.connectError msg))).2 = 1 ∧
    (OpenMeteoClient.get_current_weather defaultSettings lat lon now
        (fun _ => .transport (.timeoutException msg))).2
      = defaultSettings.RETRY_COUNT + 1 ∧
    (OpenMeteoClient.get_current_weather defaultSettings lat lon now
        (fun _ => .response 400 dta)).2 = 1 := by
  refine ⟨rfl, ?_, ?_, ?_, ?_⟩
  · by_cases h : isDnsFailureMsg msg
    · exact ⟨"Failed to resolve upstream API hostname",
        by simp [OpenMeteoClient.attemptOnce, h], rfl⟩
    · exact ⟨"Failed to connect to upstream API",
        by simp [OpenMeteoClient.attemptOnce, h], rfl⟩
  · by_cases h : isDnsFailureMsg msg <;>
      simp [OpenMeteoClient.get_current_weather, defaultSettings, tenacityRun,
        OpenMeteoClient.attemptOnce, h, should_retry]
  · simp [OpenMeteoClient.get_current_weather, defaultSettings, tenacityRun,
      OpenMeteoClient.attemptOnce, should_retry]
  · simp [OpenMeteoClient.get_current_weather, defaultSettings, tenacityRun,
      OpenMeteoClient.attemptOnce, should_retry]

/-- C3: the claim says that after a failed leader fetch the key returns to
ABSENT, so the next `coalesce` call for the key invokes `fetch_func` again
from scratch.  In the code the failed leader stores the exception, sets the
event and re-raises without cleaning up; with no waiters attached, the next
call finds the event still present, attaches as a waiter of the finished
episode, performs zero `fetch_func` invocations and re-raises the stored
stale error — even though the upstream would now succeed with `w2`.  Only
the call after that fetches from scratch. -/
theorem C3_error_episode_not_reset_without_waiters {κ : Type} [DecidableEq κ]
    (k : κ) (e : OMError) (w2 : WeatherResponse) :
    (RequestCoalescer.coalesce (RequestCoalescer.mkEmpty κ 100) k (.exc (.om e))).1
      = .raised (.om e) ∧
    (RequestCoalescer.coalesce (RequestCoalescer.mkEmpty κ 100) k (.exc (.om e))).2.2
      = 1 ∧
    (RequestCoalescer.coalesce
        (RequestCoalescer.coalesce (RequestCoalescer.mkEmpty κ 100) k
          (.exc (.om e))).2.1
        k (.ok w2)).1 = .raised (.om e) ∧
    (RequestCoalescer.coalesce
        (RequestCoalescer.coalesce (RequestCoalescer.mkEmpty κ 100) k
          (.exc (.om e))).2.1
        k (.ok w2)).2.2 = 0 ∧
    (RequestCoalescer.coalesce
        (RequestCoalescer.coalesce
          (RequestCoalescer.coalesce (RequestCoalescer.mkEmpty κ 100) k
            (.exc (.om e))).2.1
          k (.ok w2)).2.1
        k (.ok w2)).1 = .success w2 := by
  simp [RequestCoalescer.coalesce, RequestCoalescer.mkEmpty, coalesceWaiterWait,
    CoalescerState.count, CoalescerState.setCount, CoalescerState.cleanup,
    alistLookup, alistSet, alistErase]

/-- C4: the claim (and the configuration's own description of `RETRY_DELAY`
as the initial retry delay) says the first retry waits `RETRY_DELAY` and
each later delay is the previous one times `RETRY_BACKOFF_MULTIPLIER`, plus
additive jitter.  In the code `RETRY_DELAY/1000` is passed as tenacity's
`min` — a lower clamp, not the initial delay — and the deterministic part of
the wait after attempt n is `max(min, RETRY_BACKOFF_MULTIPLIER · 2^(n-1))`:
with the default settings the first three deterministic delays are 2, 4 and
8 seconds, not 0.1, 0.2 and 0.4.  The bounded-attempts and
last-error-propagated parts of the claim do hold: on persistent 503s the
call makes exactly `RETRY_COUNT + 1` attempts and re-raises the last
classified error unchanged. -/
theorem C4_first_retry_delay_is_multiplier_not_base (lat lon : ℚ) (now : ℤ)
    (dta : OpenMeteoResponse) :
    openMeteoRetryWait defaultSettings 1 0 = 2 ∧
    defaultSettings.RETRY_DELAY / 1000 = 1/10 ∧
    (2 : ℚ) ≠ 1/10 ∧
    openMeteoRetryWait defaultSettings 2 0 = 4 ∧
    openMeteoRetryWait defaultSettings 3 0 = 8 ∧
    (OpenMeteoClient.get_current_weather defaultSettings lat lon now
        (fun _ => .response 503 dta)).1
      = .error (.om (.upstreamError ("Upstream API returned " ++ toString 503))) ∧
    (OpenMeteoClient.get_current_weather defaultSettings lat lon now
        (fun _ => .response 503 dta)).2 = defaultSettings.RETRY_COUNT + 1 := by
  refine ⟨?_, ?_, by norm_num, ?_, ?_, ?_, ?_⟩
  · norm_num [openMeteoRetryWait, wait_exponential, wait_random, tenacityMaxWait,
      defaultSettings]
  · norm_num [defaultSettings]
  · norm_num [openMeteoRetryWait, wait_exponential, wait_random, tenacityMaxWait,
      defaultSettings]
  · norm_num [openMeteoRetryWait, wait_exponential, wait_random, tenacityMaxWait,
      defaultSettings]
  · simp [OpenMeteoClient.get_current_weather, defaultSettings, tenacityRun,
      OpenMeteoClient.attemptOnce, should_retry]
  · simp [OpenMeteoClient.get_current_weather, defaultSettings, tenacityRun,
      OpenMeteoClient.attemptOnce, should_retry]

/-- C5: the coalescing key is each coordinate rounded to 4 decimal places,
while the location of the returned response carries the caller's original,
unrounded coordinates — and it does not depend on the payload the provider
echoes back (the last conjunct varies the whole provider payload, echoed
coordinates included, and the location is unchanged). -/
theorem C5_key_rounded_location_original (lat lon : ℚ)
    (data data2 : OpenMeteoResponse) (now : ℤ) :
    (WeatherService.leaderCall lat lon data now).1 = (pyRound 4 lat, pyRound 4 lon) ∧
    (WeatherService.leaderCall lat lon data now).2.location.lat = lat ∧
    (WeatherService.leaderCall lat lon data now).2.location.lon = lon ∧
    (WeatherService.leaderCall lat lon data now).2.location
      = (WeatherService.leaderCall lat lon data2 now).2.location :=
  ⟨rfl, rfl, rfl, rfl⟩

/-- C6: on a full backend, `set` of an absent key drops exactly the front
(least-recently-accessed) entry and appends the new binding at the back,
keeping the store at capacity; recency is refreshed by reads and by writes:
`get` of a present key returns its value and moves the binding to the back,
and `set` of a present key moves the binding to the back without any
eviction. -/
theorem C6_lru_evicts_least_recently_accessed {ν : Type} (c : LRUInMemoryBackend ν)
    (k : String) (v : ν)
    (habs : alistLookup k c.store = none)
    (hfull : c.store.length = c.max_size)
    (hpos : 0 < c.max_size) :
    ((c.set k v).store = c.store.tail ++ [(k, v)]) ∧
    ((c.set k v).store.length = c.max_size) ∧
    (∀ k2 v2, alistLookup k2 c.store = some v2 →
        (c.get k2).1 = some v2 ∧
        (c.get k2).2.store = alistErase k2 c.store ++ [(k2, v2)]) ∧
    (∀ k2 v2, (alistLookup k2 c.store).isSome →
        (c.set k2 v2).store = alistErase k2 c.store ++ [(k2, v2)]) := by
  have htail : alistLookup k c.store.tail = none := alistLookup_tail_none k _ habs
  have hset : (c.set k v).store = c.store.tail ++ [(k, v)] := by
    simp only [LRUInMemoryBackend.set, habs, Option.isNone_none, hfull, le_refl,
      and_self, if_true]
    rw [alistErase_of_lookup_none _ _ htail]
  refine ⟨hset, ?_, ?_, ?_⟩
  · rw [hset]
    have hne : c.store.length ≠ 0 := by omega
    simp only [List.length_append, List.length_cons, List.length_nil, List.length_tail]
    omega
  · intro k2 v2 h
    simp [LRUInMemoryBackend.get, h]
  · intro k2 v2 h
    simp only [LRUInMemoryBackend.set]
    rw [if_neg]
    intro hc
    rw [Option.isNone_iff_eq_none] at hc
    rw [hc.1] at h
    simp at h

/-- C6 witness: a backend at capacity 2 holding keys a and b; setting the
absent key c evicts exactly the least recently used entry (a) and appends
c at the most-recently-used end. -/
theorem C6_witness :
    alistLookup "c" lruSample.store = none ∧
    lruSample.store.length = lruSample.max_size ∧
    0 < lruSample.max_size ∧
    (lruSample.set "c" 3).store = lruSample.store.tail ++ [("c", 3)] ∧
    (lruSample.set "c" 3).store.length = lruSample.max_size :=
  ⟨by decide, by decide, by decide,
   (C6_lru_evicts_least_recently_accessed lruSample "c" 3
      (by decide) (by decide) (by decide)).1,
   (C6_lru_evicts_least_recently_accessed lruSample "c" 3
      (by decide) (by decide) (by decide)).2.1⟩

/-- C7: for every coalescer state in which the key has a fetch in flight
(its event is registered) and the waiter count has reached the configured
maximum, a `coalesce` call for that key returns the 503
"too many concurrent requests" rejection at once: the state — the in-flight
event, the stored result and the waiter counts — is unchanged (the caller is
not queued and the fetch in progress and its waiters are unaffected), and
`fetch_func` is not invoked. -/
theorem C7_admission_control_rejects_at_limit {κ : Type} [DecidableEq κ]
    (s : CoalescerState κ) (k : κ) (f : FetchOutcome) (b : Bool)
    (hev : alistLookup k s.events = some b)
    (hcnt : s.maxWaiters ≤ s.count k) :
    RequestCoalescer.coalesce s k f = (.raised coalesceRejection, s, 0) := by
  simp [RequestCoalescer.coalesce, hev, hcnt]

/-- C7 witness: a coalescer with a fetch in flight for key 7 and 100 of 100
waiter slots taken rejects a further call with the 503 and is unchanged. -/
theorem C7_witness :
    alistLookup 7 coalescerBusy.events = some false ∧
    coalescerBusy.maxWaiters ≤ coalescerBusy.count 7 ∧
    RequestCoalescer.coalesce coalescerBusy 7 (.ok weatherSample)
      = (.raised coalesceRejection, coalescerBusy, 0) :=
  ⟨rfl, by decide,
   C7_admission_control_rejects_at_limit coalescerBusy 7 (.ok weatherSample) false
     rfl (by decide)⟩

/-- C8: the orchestrator's `except` chain maps every internal error kind to
exactly one externally visible failure: timeout to 504 gateway timeout, 5xx
upstream error to 502 bad gateway, client and network errors to 502 bad
gateway, the admission-control rejection (an `HTTPException`) re-raises
unchanged as 503 service unavailable, and any unclassified exception —
including raw transport exceptions — surfaces as a generic 500 internal
error, never unhandled (`WeatherService.mapException` is total). -/
theorem C8_error_kinds_map_to_one_status :
    (∀ m, WeatherService.mapException (.om (.timeoutError m))
      = (504, "Gateway timeout - upstream API did not respond in time")) ∧
    (∀ m, WeatherService.mapException (.om (.upstreamError m))
      = (502, "Bad gateway - upstream API error")) ∧
    (∀ m, WeatherService.mapException (.om (.clientError m))
      = (502, "Bad gateway - upstream API error")) ∧
    (∀ m, WeatherService.mapException (.om (.networkError m))
      = (502, "Bad gateway - upstream API error")) ∧
    WeatherService.mapException coalesceRejection
      = (503, "Service temporarily unavailable - too many concurrent requests") ∧
    (∀ d, WeatherService.mapException (.other d) = (500, "Internal server error")) ∧
    (∀ e, WeatherService.mapException (.httpx e) = (500, "Internal server error")) := by
  refine ⟨fun m => rfl, fun m => rfl, fun m => rfl, fun m => rfl, rfl,
    fun d => rfl, fun e => ?_⟩
  cases e <;> rfl

/-- C9 counterexample: the claim's consequence "two inputs differing only
beyond the 4th decimal place map to the same coalescing key" is false.
0.1234 and 0.123451 agree in sign, integer part and their first four
decimal digits (formally: same floor of x·10⁴), yet round to the keys
0.1234 and 0.1235 respectively, because the fifth decimal pushes the
second value past the rounding midpoint. -/
theorem C9_counterexample :
    Int.floor ((1234/10000 : ℚ) * 10 ^ 4) = Int.floor ((123451/1000000 : ℚ) * 10 ^ 4) ∧
    WeatherService.cacheKey (1234/10000) 0 ≠ WeatherService.cacheKey (123451/1000000) 0 := by
  constructor
  · norm_num
  · have h1 : pyRound 4 (1234/10000) = 1234/10000 := by
      unfold pyRound roundHalfEven; norm_num
    have h2 : pyRound 4 (123451/1000000) = 1235/10000 := by
      unfold pyRound roundHalfEven; norm_num
    simp only [WeatherService.cacheKey, h1, h2, ne_eq, Prod.mk.injEq, not_and]
    intro h
    norm_num at h

/-- C9 (amended): rounding to 4 decimal places is idempotent —
round(round(x,4),4) = round(x,4) — so re-rounding an already-rounded pair
leaves the coalescing key unchanged, and two inputs with the same rounded
value share a key; but inputs that agree only in their first four decimal
digits may still round to different keys (see the counterexample). -/
theorem C9_round4_idempotent (x lat lon : ℚ) :
    pyRound 4 (pyRound 4 x) = pyRound 4 x ∧
    WeatherService.cacheKey (pyRound 4 lat) (pyRound 4 lon)
      = WeatherService.cacheKey lat lon := by
  refine ⟨pyRound_pyRound 4 x, ?_⟩
  simp [WeatherService.cacheKey, pyRound_pyRound]

/-- C10: for a backend with max_size ≥ 1, the size bound size() ≤ max_size
holds for a fresh backend and is preserved by get, set, delete and clear
(with or without a key argument); and a set of an already-present key at
full capacity updates the entry in place: the size stays at max_size, the
key now maps to the new value, and every other binding in the store is
untouched — nothing is evicted. -/
theorem C10_size_invariant_and_inplace_update {ν : Type} (c : LRUInMemoryBackend ν)
    (k : String) (v : ν)
    (hmax : 0 < c.max_size) (hinv : c.store.length ≤ c.max_size)
    (hnd : (c.store.map Prod.fst).Nodup) :
    (LRUInMemoryBackend.mkEmpty ν c.max_size).size ≤ c.max_size ∧
    (c.get k).2.size ≤ c.max_size ∧
    (c.set k v).size ≤ c.max_size ∧
    (c.delete k).size ≤ c.max_size ∧
    (∀ karg, (c.clear karg).size ≤ c.max_size) ∧
    ((alistLookup k c.store).isSome = true → c.store.length = c.max_size →
      (c.set k v).size = c.max_size ∧
      alistLookup k (c.set k v).store = some v ∧
      (∀ k2, k2 ≠ k → alistLookup k2 (c.set k v).store = alistLookup k2 c.store)) := by
  refine ⟨?_, ?_, ?_, ?_, ?_, ?_⟩
  · simp [LRUInMemoryBackend.mkEmpty, LRUInMemoryBackend.size]
  · unfold LRUInMemoryBackend.get LRUInMemoryBackend.size
    cases h : alistLookup k c.store with
    | none => simpa using hinv
    | some v2 =>
      have := alistErase_length_of_lookup_some k c.store v2 h
      simp only [List.length_append, List.length_cons, List.length_nil]
      omega
  · unfold LRUInMemoryBackend.set LRUInMemoryBackend.size
    by_cases hcond : (alistLookup k c.store).isNone ∧ c.max_size ≤ c.store.length
    · rw [if_pos hcond]
      show (alistErase k c.store.tail ++ [(k, v)]).length ≤ c.max_size
      have habs : alistLookup k c.store = none := by
        rw [← Option.isNone_iff_eq_none]; exact hcond.1
      have htail : alistLookup k c.store.tail = none := alistLookup_tail_none k _ habs
      rw [alistErase_of_lookup_none _ _ htail]
      have hne : c.store.length ≠ 0 := by
        intro h0
        have := hcond.2
        omega
      simp only [List.length_append, List.length_cons, List.length_nil,
        List.length_tail]
      omega
    · rw [if_neg hcond]
      show (alistErase k c.store ++ [(k, v)]).length ≤ c.max_size
      cases h : alistLookup k c.store with
      | none =>
        have hlt : c.store.length < c.max_size := by
          by_contra hge
          exact hcond ⟨by simp [h], by omega⟩
        rw [alistErase_of_lookup_none _ _ h]
        simp only [List.length_append, List.length_cons, List.length_nil]
        omega
      | some v2 =>
        have := alistErase_length_of_lookup_some k c.store v2 h
        simp only [List.length_append, List.length_cons, List.length_nil]
        omega
  · unfold LRUInMemoryBackend.delete LRUInMemoryBackend.size
    exact le_trans (alistErase_length_le k c.store) hinv
  · intro karg
    unfold LRUInMemoryBackend.clear
    by_cases h : pyTruthyStr karg = true
    · simp only [h, if_true]
      unfold LRUInMemoryBackend.delete LRUInMemoryBackend.size
      exact le_trans (alistErase_length_le _ c.store) hinv
    · simp only [h, if_false]
      simp [LRUInMemoryBackend.size]
  · intro hpres hfull
    have hnotnone : ¬ ((alistLookup k c.store).isNone ∧ c.max_size ≤ c.store.length) := by
      intro hc
      rw [Option.isNone_iff_eq_none] at hc
      rw [hc.1] at hpres
      simp at hpres
    obtain ⟨v0, hv0⟩ := Option.isSome_iff_exists.mp hpres
    refine ⟨?_, ?_, ?_⟩
    · unfold LRUInMemoryBackend.set LRUInMemoryBackend.size
      rw [if_neg hnotnone]
      show (alistErase k c.store ++ [(k, v)]).length = c.max_size
      have := alistErase_length_of_lookup_some k c.store v0 hv0
      simp only [List.length_append, List.length_cons, List.length_nil]
      omega
    · unfold LRUInMemoryBackend.set
      rw [if_neg hnotnone]
      show alistLookup k (alistErase k c.store ++ [(k, v)]) = some v
      rw [alistLookup_append]
      rw [alistLookup_alistErase_self k c.store hnd]
      simp [alistLookup]
    · intro k2 hk2
      unfold LRUInMemoryBackend.set
      rw [if_neg hnotnone]
      show alistLookup k2 (alistErase k c.store ++ [(k, v)]) = alistLookup k2 c.store
      rw [alistLookup_append]
      rw [alistLookup_alistErase_ne k k2 c.store hk2]
      cases h2 : alistLookup k2 c.store with
      | none => simp [alistLookup, Ne.symm hk2]
      | some w => simp

/-- C10 witness: a backend at capacity 2; every operation keeps the size
bound, and setting the present key a at full capacity keeps the size at 2
and stores the new value in place. -/
theorem C10_witness :
    0 < lruSample.max_size ∧
    lruSample.store.length ≤ lruSample.max_size ∧
    (lruSample.store.map Prod.fst).Nodup ∧
    (alistLookup "a" lruSample.store).isSome = true ∧
    lruSample.store.length = lruSample.max_size ∧
    (lruSample.set "a" 5).size = lruSample.max_size ∧
    alistLookup "a" (lruSample.set "a" 5).store = some 5 :=
  ⟨by decide, by decide, by decide, by decide, by decide,
   ((C10_size_invariant_and_inplace_update lruSample "a" 5
       (by decide) (by decide) (by decide)).2.2.2.2.2 (by decide) (by decide)).1,
   ((C10_size_invariant_and_inplace_update lruSample "a" 5
       (by decide) (by decide) (by decide)).2.2.2.2.2 (by decide) (by decide)).2.1⟩
